import Mathlib

/-!
Verification development for the BPSR-PSO-SX instance/scene transition
detector and session lifecycle manager.

The definitions below are a shallow embedding of the JavaScript sources:

* `src/services/InstanceTracker.js` (the variant containing the
  `_firstInstanceLocked` gate and `_shouldTriggerInstance`): state type
  `TrackerState`, operations `bump`, `commitPendingScene`,
  `updateFromSceneData`, `updateFromVData`, `setPlayerUuid`, the AOI hooks,
  and the event-level `step`/`run` semantics.
* `src/services/Sessions.js`: the in-memory view of the session store,
  `listSessions`, `addSession`, `deleteSession`, `clearSessions`.
* the `UserDataManager` session glue (`onInstanceChanged`,
  `_finalizeAndPersistSession`, `_buildPlayerSnapshot`).

Conventions of the embedding:

* JavaScript `null`/absent/non-finite numeric fields are modelled with
  `Option`; `Number.isFinite(Number(x)) ? Number(x) : null` becomes an
  `Option Int` input field.
* `Date.now()` is passed explicitly as a `now : Int` parameter.
* Side effects on the collaborators are returned as values: an emitted
  `InstanceEvent` stands for the `udm.onInstanceChanged` notification
  (which in the source happens in the same guarded branch as the
  enemy-cache / live-log clearing, so `some ev` also means "caches were
  cleared"); the session store is threaded as a `List`.
* The store's `fs` write failure is modelled by a boolean `addFails`
  oracle: when it is `true` the `addSession` call throws and leaves the
  store unchanged (the manager catches the exception).
-/

namespace BPSR

/-- The `_scene` snapshot held by the tracker
(`InstanceTracker` constructor / `updateFromSceneData`). GUID-ish fields
are the `u64ToString` normalisations, hence `Option String`. -/
structure TrackerScene where
  dungeonGuid : Option String
  levelUuid : Option String
  sceneGuid : Option String
  recordId : Option String
  mapId : Option Int
  levelMapId : Option Int
  lastSceneId : Option Int
  sceneId : Option Int
deriving DecidableEq, Repr

/-- The staged `_pendingScene` object
(`{ srcSceneId, dstSceneId, nextSceneId, levelMapId }`). -/
structure PendingScene where
  srcSceneId : Option Int
  dstSceneId : Option Int
  nextSceneId : Option Int
  levelMapId : Option Int
deriving DecidableEq, Repr

/-- Mutable state of `InstanceTracker`. Logger/map-name table fields are
omitted: they never influence control flow of the verified operations. -/
structure TrackerState where
  debounceMs : Int
  currentMapId : Option Int
  currentSceneId : Option Int
  currentPlayerUuid : Option Nat
  currentPlayerUid : Option Int
  lastUidChangeAt : Int
  firstInstanceLocked : Bool
  instanceSeq : Nat
  lastChangeTs : Int
  lastAoiPopulation : Int
  lastAoiWipeTs : Int
  lastSelfAppearedTs : Int
  pendingScene : Option PendingScene
  scene : TrackerScene
deriving DecidableEq, Repr

/-- The `extra` payload fields of a raised reason that the verified
properties observe (`from`, `to`, `via`). -/
structure Extra where
  fromId : Option Int
  toId : Option Int
  via : Option String
deriving DecidableEq, Repr

/-- The `udm.onInstanceChanged(seq, reason, extra)` notification. In the
source this call sits in the same `shouldTrigger` branch as the
enemy-cache and live-log clearing, so producing an `InstanceEvent` also
means the transient caches were reset. -/
structure InstanceEvent where
  seq : Nat
  reason : String
  extra : Extra
deriving DecidableEq, Repr

/-- `u64ToString` applied to a numeric u64 value: `if (!u) return null;
... return String(u)` — note `0` is falsy in JavaScript. -/
def u64ToString (u : Option Nat) : Option String :=
  match u with
  | none => none
  | some n => if n = 0 then none else some (toString n)

/-- `_shouldTriggerInstance(reason)`: mutates `_firstInstanceLocked`,
returns whether the reason is trigger-worthy. -/
def shouldTriggerInstance (s : TrackerState) (reason : String) :
    TrackerState × Bool :=
  if !s.firstInstanceLocked then
    if reason = "player-uuid-changed" then
      ({ s with firstInstanceLocked := true }, true)
    else
      (s, false)
  else
    (s, reason = "scene-id-changed")

/-- `bump(reason, extra)`: debounce gate, sequence increment, timestamp,
then trigger decision; `some ev` means the caches were cleared and
`onInstanceChanged` was called. -/
def bump (now : Int) (reason : String) (extra : Extra) (s : TrackerState) :
    TrackerState × Option InstanceEvent :=
  if s.debounceMs > 0 ∧ now - s.lastChangeTs < s.debounceMs then
    (s, none)
  else
    let s1 := { s with instanceSeq := s.instanceSeq + 1, lastChangeTs := now }
    let p := shouldTriggerInstance s1 reason
    if p.2 then
      (p.1, some ⟨p.1.instanceSeq, reason, extra⟩)
    else
      (p.1, none)

/-- `_commitPendingScene(reason)`. -/
def commitPendingScene (now : Int) (reason : String) (s : TrackerState) :
    TrackerState × Option InstanceEvent :=
  match s.pendingScene with
  | none => (s, none)
  | some staged =>
    match staged.nextSceneId with
    | none => ({ s with pendingScene := none }, none)
    | some next =>
      if s.currentSceneId = some next then
        ({ s with pendingScene := none }, none)
      else
        let prev := s.currentSceneId
        let s1 := { s with currentSceneId := some next, pendingScene := none }
        bump now "scene-id-changed"
          ⟨(prev <|> staged.srcSceneId), some next, some reason⟩ s1

/-- Input shape of `updateFromSceneData`: each field is the normalised
(present-and-finite, or `u64`) value, `none` when absent or non-finite. -/
structure SceneDataIn where
  lastSceneDataSceneId : Option Int
  levelMapId : Option Int
  dungeonGuid : Option Nat
  levelUuid : Option Nat
  sceneGuid : Option Nat
  recordId : Option Nat
deriving DecidableEq, Repr

/-- The normalized `next` descriptor computed inside
`updateFromSceneData` (the object whose keys are diffed against
`_scene`). -/
def descriptorOf (d : SceneDataIn) : TrackerScene :=
  { dungeonGuid := u64ToString d.dungeonGuid
    levelUuid := u64ToString d.levelUuid
    sceneGuid := u64ToString d.sceneGuid
    recordId := u64ToString d.recordId
    mapId := none
    levelMapId := d.levelMapId
    lastSceneId := d.lastSceneDataSceneId
    sceneId := d.levelMapId }

/-- `updateFromSceneData(sceneData)`: field diff against `_scene`, then
wholesale replacement plus (re-)staging of `_pendingScene`. It only calls
`_info` (no `bump`), so it never emits an `InstanceEvent`. `none` input
models a missing / non-object `sceneData` argument. -/
def updateFromSceneData (sd : Option SceneDataIn) (s : TrackerState) :
    TrackerState :=
  match sd with
  | none => s
  | some d =>
    let next := descriptorOf d
    if next = s.scene then
      s
    else
      { s with
          scene := next
          pendingScene := some
            ⟨d.lastSceneDataSceneId, d.levelMapId, d.levelMapId, d.levelMapId⟩ }

/-- Input shape of `updateFromVData`: only the `SceneData` sub-record is
consulted by the verified variant. -/
structure VDataIn where
  sceneData : Option SceneDataIn
deriving DecidableEq, Repr

/-- `InstanceTracker._deriveSceneIdFromVData(vData)`:
`vData?.SceneData?.LevelMapId` when finite, else `null`. -/
def deriveSceneIdFromVData (v : VDataIn) : Option Int :=
  v.sceneData.bind (fun d => d.levelMapId)

/-- `updateFromVData(vData)`: scene-data staging, then authoritative
derived-scene handling (commit the pending transition, or set directly
and raise `scene-id-changed` via `derived`). `none` models a falsy
argument. -/
def updateFromVData (now : Int) (v : Option VDataIn) (s : TrackerState) :
    TrackerState × Option InstanceEvent :=
  match v with
  | none => (s, none)
  | some vd =>
    let s1 := updateFromSceneData vd.sceneData s
    match deriveSceneIdFromVData vd with
    | none => (s1, none)
    | some dId =>
      if s1.currentSceneId = some dId then
        (s1, none)
      else if s1.pendingScene.isSome then
        commitPendingScene now "map-or-dungeon-changed" s1
      else
        let prev := s1.currentSceneId
        let s2 := { s1 with currentSceneId := some dId }
        bump now "scene-id-changed" ⟨prev, some dId, some "derived"⟩ s2

/-- `setPlayerUuid(newUuidLong, {debounceMs})`: the uuid is modelled as
its unsigned numeric value (`none` for a falsy argument); the derived uid
is the 16-bit unsigned right shift. Returns the updated state, the
possible notification, and the boolean return value. -/
def setPlayerUuid (now : Int) (uuid : Option Nat) (debounceMs : Int)
    (s : TrackerState) : (TrackerState × Option InstanceEvent) × Bool :=
  match uuid with
  | none => ((s, none), false)
  | some u =>
    let newUid : Int := (u / 2 ^ 16 : Nat)
    if s.currentPlayerUid = some newUid then
      ((s, none), false)
    else if debounceMs > 0 ∧ now - s.lastUidChangeAt < debounceMs then
      ((s, none), false)
    else
      let s1 := { s with
        currentPlayerUuid := some u
        currentPlayerUid := some newUid
        lastUidChangeAt := now }
      (bump now "player-uuid-changed" ⟨none, s1.currentMapId, none⟩ s1, true)

/-- `onAoiWipe({disappearCount})`: `aoi-wipe` bump then commit attempt. -/
def onAoiWipe (now : Int) (s : TrackerState) :
    TrackerState × List InstanceEvent :=
  let s0 := { s with lastAoiWipeTs := now }
  let p1 := bump now "aoi-wipe" ⟨none, s0.currentMapId, none⟩ s0
  let p2 := commitPendingScene now "aoi-wipe" p1.1
  (p2.1, p1.2.toList ++ p2.2.toList)

/-- `onSelfAppearedInAoi({uuid})`: bump, commit, and the synthetic
`entered-sub-instance` bump when within 3000ms of the last wipe. -/
def onSelfAppearedInAoi (now : Int) (s : TrackerState) :
    TrackerState × List InstanceEvent :=
  let s0 := { s with lastSelfAppearedTs := now }
  let p1 := bump now "self-appeared-in-aoi" ⟨none, none, none⟩ s0
  let p2 := commitPendingScene now "self-appeared-in-aoi" p1.1
  if now - p2.1.lastAoiWipeTs < 3000 then
    let p3 := bump now "entered-sub-instance" ⟨none, p2.1.currentMapId, none⟩ p2.1
    (p3.1, p1.2.toList ++ p2.2.toList ++ p3.2.toList)
  else
    (p2.1, p1.2.toList ++ p2.2.toList)

/-- `onSelfDisappearedFromAoi({uuid})`. -/
def onSelfDisappearedFromAoi (now : Int) (s : TrackerState) :
    TrackerState × List InstanceEvent :=
  let p := bump now "self-disappeared-from-aoi" ⟨none, none, none⟩ s
  (p.1, p.2.toList)

/-- `onPopulationDelta(delta)`. -/
def onPopulationDelta (delta : Int) (s : TrackerState) : TrackerState :=
  if delta ≠ 0 then
    { s with lastAoiPopulation := max 0 (s.lastAoiPopulation + delta) }
  else
    s

/-- One detector input, in the sense of the spec's ingestion interface. -/
inductive DetectorEvent where
  | identity (uuid : Option Nat) (debounceMs : Int)
  | sceneData (sd : Option SceneDataIn)
  | vData (v : Option VDataIn)
  | aoiWipe (disappearCount : Int)
  | selfAppeared
  | selfDisappeared
  | popDelta (delta : Int)
deriving DecidableEq, Repr

/-- Whether an event is an identity (player uuid) event. -/
def DetectorEvent.isIdentity : DetectorEvent → Bool
  | .identity _ _ => true
  | _ => false

/-- Ingest one detector event, collecting all emitted notifications. -/
def step (now : Int) (ev : DetectorEvent) (s : TrackerState) :
    TrackerState × List InstanceEvent :=
  match ev with
  | .identity uuid dbm =>
    let r := setPlayerUuid now uuid dbm s
    (r.1.1, r.1.2.toList)
  | .sceneData sd => (updateFromSceneData sd s, [])
  | .vData v =>
    let r := updateFromVData now v s
    (r.1, r.2.toList)
  | .aoiWipe _ => onAoiWipe now s
  | .selfAppeared => onSelfAppearedInAoi now s
  | .selfDisappeared => onSelfDisappearedFromAoi now s
  | .popDelta d => (onPopulationDelta d s, [])

/-- Ingest a timed sequence of detector events. -/
def run (evs : List (Int × DetectorEvent)) (s : TrackerState) :
    TrackerState × List InstanceEvent :=
  match evs with
  | [] => (s, [])
  | (t, e) :: rest =>
    let p := step t e s
    let q := run rest p.1
    (q.1, p.2 ++ q.2)

/-- JavaScript numeric coercion result for the constructor's `debounceMs`
option: either a finite number or a non-numeric value (`NaN` after
`Number(...)`). -/
inductive JsNum where
  | num (n : Int)
  | nonNumeric
deriving DecidableEq, Repr

/-- `Number(debounceMs) || 0`. -/
def normalizeDebounce : JsNum → Int
  | .num n => if n = 0 then 0 else n
  | .nonNumeric => 0

/-- The freshly constructed tracker (`constructor`), with `now` standing
for the `Date.now()` captured into `_lastChangeTs`. -/
def mkTracker (debounce : JsNum) (now : Int) : TrackerState :=
  { debounceMs := normalizeDebounce debounce
    currentMapId := none
    currentSceneId := none
    currentPlayerUuid := none
    currentPlayerUid := none
    lastUidChangeAt := 0
    firstInstanceLocked := false
    instanceSeq := 0
    lastChangeTs := now
    lastAoiPopulation := 0
    lastAoiWipeTs := 0
    lastSelfAppearedTs := 0
    pendingScene := none
    scene :=
      { dungeonGuid := none, levelUuid := none, sceneGuid := none
        recordId := none, mapId := none, levelMapId := none
        lastSceneId := none, sceneId := none } }

/-! ### Session store (`src/services/Sessions.js`) -/

/-- One per-player entry of a finalized snapshot, as built by
`_buildPlayerSnapshot` (top-spell sub-lists are carried opaquely by the
source and do not influence any verified property, so only the fields
that do are kept). -/
structure PlayerSnap where
  uid : Nat
  name : String
  damage : Int
  heal : Int
deriving DecidableEq, Repr

/-- A persisted session record as `listSessions` reads it back from the
JSON file: fields may be absent or of the wrong runtime type.
`partySize = none` models `typeof s.partySize !== 'number'`;
`playersCount = none` models `typeof s.playersCount !== 'number'`;
`snapshotPlayers = none` models `!Array.isArray(s?.snapshot?.players)`
(covering both a missing snapshot and a non-array `players`). -/
structure RawSession where
  id : Nat
  name : String
  startedAt : Option Int
  partySize : Option Int
  playersCount : Option Int
  snapshotPlayers : Option (List PlayerSnap)
deriving DecidableEq, Repr

/-- A list-view entry: the record's metadata with the derived
`partySize`; the `snapshot` and legacy `playersCount` fields are stripped
(they do not exist in this type). -/
structure ListedSession where
  id : Nat
  name : String
  startedAt : Option Int
  partySize : Int
deriving DecidableEq, Repr

/-- The fallback chain of the `partySize` derivation in `listSessions`:
`snapshot.players.length`, else `playersCount`, else `0`. -/
def partySizeFallback (s : RawSession) : Int :=
  match s.snapshotPlayers with
  | some ps => (ps.length : Int)
  | none => s.playersCount.getD 0

/-- The `partySize` derivation of `listSessions`:
`(typeof s.partySize === 'number' && s.partySize > 0) ? s.partySize : …`. -/
def derivePartySize (s : RawSession) : Int :=
  match s.partySize with
  | some n => if n > 0 then n else partySizeFallback s
  | none => partySizeFallback s

/-- Modelled from the spec (§4.3 / claim C8's wording, for comparison
with `derivePartySize`): priority "explicit `partySize` field first, else
snapshot player count, else legacy `playersCount`, else 0", with no
positivity condition on the explicit field. -/
def specClaimedPartySize (s : RawSession) : Int :=
  match s.partySize with
  | some n => n
  | none => partySizeFallback s

/-- The projection applied by `listSessions` to each record:
`const { snapshot, playersCount, ...meta } = s; return { ...meta, partySize }`. -/
def listedOf (s : RawSession) : ListedSession :=
  { id := s.id, name := s.name, startedAt := s.startedAt
    partySize := derivePartySize s }

/-- The sort key `(x.startedAt || 0)` of the `listSessions` comparator. -/
def listedKey (s : ListedSession) : Int :=
  s.startedAt.getD 0

/-- Descending `startedAt` order, as produced by the comparator
`(a, b) => (b.startedAt || 0) - (a.startedAt || 0)`. -/
def listedDesc (a b : ListedSession) : Prop :=
  listedKey b ≤ listedKey a

instance : DecidableRel listedDesc := fun a b =>
  inferInstanceAs (Decidable (listedKey b ≤ listedKey a))

instance : IsTotal ListedSession listedDesc :=
  ⟨fun a b => le_total (listedKey b) (listedKey a)⟩

instance : IsTrans ListedSession listedDesc :=
  ⟨fun _ _ _ hab hbc => le_trans hbc hab⟩

/-- `listSessions()`: map each persisted record to its stripped list-view
form with the derived `partySize`, then sort by `startedAt` descending
(JavaScript's stable sort is modelled by stable insertion sort). -/
def listSessions (store : List RawSession) : List ListedSession :=
  (store.map listedOf).insertionSort listedDesc

/-! ### Session lifecycle manager (`UserDataManager` sessions glue) -/

/-- A tracked user, reduced to the summary fields the session glue reads:
`sum.total_damage.total` and `sum.total_healing.total`. -/
structure UserEntry where
  uid : Nat
  name : String
  totalDamage : Int
  totalHeal : Int
deriving DecidableEq, Repr

/-- `_buildPlayerSnapshot(uid)`: `null` (skip) for a player with neither
damage nor healing. -/
def buildPlayerSnapshot (u : UserEntry) : Option PlayerSnap :=
  if u.totalDamage ≤ 0 ∧ u.totalHeal ≤ 0 then none
  else some ⟨u.uid, u.name, u.totalDamage, u.totalHeal⟩

/-- `getUserIds().map(_buildPlayerSnapshot).filter(Boolean)`. -/
def qualifyingPlayers (users : List UserEntry) : List PlayerSnap :=
  users.filterMap buildPlayerSnapshot

/-- The in-memory `currentSession` object. -/
structure OpenSession where
  id : Nat
  name : String
  startedAt : Int
  reasonStart : String
  seq : Option Nat
  instanceId : Option Int
  fromInstance : Option Int
deriving DecidableEq, Repr

/-- The finalized record handed to `Sessions.addSession`. The
instance-change path omits `reasonStart` (hence `Option`); the shutdown
path includes it. `snapshotPlayers` is the filtered player list of the
snapshot (the aggregate `usersAgg` payload is opaque). -/
structure SessionRecord where
  id : Nat
  name : String
  startedAt : Int
  endedAt : Int
  durationMs : Int
  reasonStart : Option String
  reasonEnd : String
  seq : Option Nat
  instanceId : Option Int
  fromInstance : Option Int
  partySize : Nat
  snapshotPlayers : List PlayerSnap
deriving DecidableEq, Repr

/-- The manager state the session glue touches. -/
structure ManagerState where
  users : List UserEntry
  currentSession : Option OpenSession
  startTime : Int
deriving DecidableEq, Repr

/-- Step 1 of `onInstanceChanged`: finalize the open session. `addFails`
models `Sessions.addSession` throwing (a file-write failure); the
exception is caught, logged and the store left unchanged. In every branch
`this.currentSession = null` afterwards. -/
def finalizeOnInstanceChange (now : Int) (reason : String) (addFails : Bool)
    (st : ManagerState) (store : List SessionRecord) :
    ManagerState × List SessionRecord :=
  match st.currentSession with
  | none => (st, store)
  | some cs =>
    let players := qualifyingPlayers st.users
    if players = [] then
      ({ st with currentSession := none }, store)
    else
      let record : SessionRecord :=
        { id := cs.id
          name := cs.name
          startedAt := cs.startedAt
          endedAt := now
          durationMs := max 0 (now - cs.startedAt)
          reasonStart := none
          reasonEnd := if reason = "" then "instance_change" else reason
          seq := cs.seq
          instanceId := cs.instanceId
          fromInstance := cs.fromInstance
          partySize := players.length
          snapshotPlayers := players }
      let store1 := if addFails then store else store ++ [record]
      ({ st with currentSession := none }, store1)

/-- Step 2 of `onInstanceChanged`: `clearAll()` — fresh user map and a
new `startTime` (the asynchronous save of the old data is file IO and is
not modelled). -/
def clearAllUsers (now : Int) (st : ManagerState) : ManagerState :=
  { st with users := [], startTime := now }

/-- Map-name lookup with the `Instance <id>` fallback
(`mapNames[String(mapId)] || `Instance ${mapId}``). -/
def mapNameFor (table : List (Int × String)) (mapId : Int) : String :=
  (table.lookup mapId).getD ("Instance " ++ toString mapId)

/-- Steps 3–4 of `onInstanceChanged`: derive the session name and open the
new in-memory session. `freshId` models `crypto.randomUUID()`; the local
date-time rendering of the name suffix is abstracted to the raw
timestamp. -/
def openNewSession (now : Int) (freshId : Nat) (table : List (Int × String))
    (seq : Nat) (reason : String) (extra : Extra) (st : ManagerState) :
    ManagerState :=
  let mapId : Int := extra.toId.getD (seq : Int)
  let sessionName := mapNameFor table mapId ++ " - " ++ toString now
  { st with
      currentSession := some
        { id := freshId
          name := sessionName
          startedAt := now
          reasonStart := reason
          seq := some seq
          instanceId := some mapId
          fromInstance := extra.fromId } }

/-- `onInstanceChanged(seq, reason, extra)`: finalize, reset, reopen. -/
def onInstanceChanged (now : Int) (freshId : Nat)
    (table : List (Int × String)) (addFails : Bool) (seq : Nat)
    (reason : String) (extra : Extra) (st : ManagerState)
    (store : List SessionRecord) : ManagerState × List SessionRecord :=
  let p := finalizeOnInstanceChange now reason addFails st store
  let st1 := clearAllUsers now p.1
  (openNewSession now freshId table seq reason extra st1, p.2)

/-- `_finalizeAndPersistSession(reasonEnd)`: the shutdown finalization
path. A failing `addSession` is caught; the `finally` block clears
`currentSession` in every branch that reaches the persist attempt. -/
def finalizeAndPersistSession (now : Int) (reasonEnd : String)
    (addFails : Bool) (st : ManagerState) (store : List SessionRecord) :
    ManagerState × List SessionRecord :=
  match st.currentSession with
  | none => (st, store)
  | some cs =>
    let players := qualifyingPlayers st.users
    if players = [] then
      ({ st with currentSession := none }, store)
    else
      let record : SessionRecord :=
        { id := cs.id
          name := cs.name
          startedAt := cs.startedAt
          endedAt := now
          durationMs := max 0 (now - cs.startedAt)
          reasonStart := some cs.reasonStart
          reasonEnd := reasonEnd
          seq := cs.seq
          instanceId := cs.instanceId
          fromInstance := cs.fromInstance
          partySize := players.length
          snapshotPlayers := players }
      let store1 := if addFails then store else store ++ [record]
      ({ st with currentSession := none }, store1)

/-! ### Concrete fixtures used by counterexamples and witnesses -/

/-- The debounce guard of `bump` (and `setPlayerUuid`):
`debounceMs > 0 && now - lastChangeTs < debounceMs`. -/
def debounced (now : Int) (s : TrackerState) : Prop :=
  s.debounceMs > 0 ∧ now - s.lastChangeTs < s.debounceMs

instance (now : Int) (s : TrackerState) : Decidable (debounced now s) :=
  inferInstanceAs (Decidable (_ ∧ _))

/-- A tracker that has already accepted its first identity change
(`_firstInstanceLocked = true`, sequence 1), with debouncing disabled. -/
def lockedBase : TrackerState :=
  { mkTracker (.num 0) 0 with firstInstanceLocked := true, instanceSeq := 1 }

/-- Locked tracker with a staged transition from scene 5 to scene 100 and
no committed current scene. -/
def s3c : TrackerState :=
  { lockedBase with pendingScene := some ⟨some 5, some 100, some 100, some 100⟩ }

/-- Scene data proposing `LevelMapId = 100` with `LastSceneData.SceneId = 5`. -/
def d6c : SceneDataIn :=
  ⟨some 5, some 100, none, none, none, none⟩

/-- Locked tracker whose `_scene` snapshot already equals the descriptor
of `d6c` and whose staged transition targets scene 100 (the state after
the spec's Scenario 2 ingestion). -/
def s6c : TrackerState :=
  { lockedBase with
      scene := descriptorOf d6c
      pendingScene := some ⟨some 5, some 100, some 100, some 100⟩ }

/-- A telemetry record carrying the `d6c` scene sub-record. -/
def v6c : VDataIn := ⟨some d6c⟩

/-- Scene data whose only non-null field is a dungeon GUID (no
`LevelMapId`). -/
def d5c : SceneDataIn :=
  ⟨none, none, some 7, none, none, none⟩

/-- A freshly constructed tracker with the constructor defaults. -/
def trackerInit : TrackerState := mkTracker (.num 0) 0

/-- A user with damage (qualifies for a snapshot). -/
def user1 : UserEntry := ⟨1, "a", 5, 0⟩

/-- A user with neither damage nor healing (skipped by the snapshot). -/
def user2 : UserEntry := ⟨2, "b", 0, 0⟩

/-- An open session fixture. -/
def openS : OpenSession := ⟨10, "sess", 100, "identity-changed", some 1, some 42, none⟩

/-- Manager state with one qualifying and one non-qualifying user and an
open session. -/
def mgrSt : ManagerState := ⟨[user1, user2], some openS, 0⟩

/-- Manager state whose only user has zero damage and healing. -/
def mgrStEmpty : ManagerState := ⟨[user2], some openS, 0⟩

/-- Snapshot players for the store fixtures. -/
def p8a : PlayerSnap := ⟨1, "a", 1, 0⟩

/-- Second snapshot player for the store fixtures. -/
def p8b : PlayerSnap := ⟨2, "b", 0, 2⟩

/-- A persisted record whose explicit `partySize` field is the number `0`
while its snapshot holds two players. -/
def r0c8 : RawSession := ⟨0, "s", some 5, some 0, some 7, some [p8a, p8b]⟩

/-- A persisted record with an explicit positive `partySize` field. -/
def r1c8 : RawSession := ⟨1, "t", some 9, some 3, none, none⟩

/-! ### Helper lemmas: case equations for `bump` -/

theorem bump_debounced (now : Int) (reason : String) (extra : Extra)
    (s : TrackerState) (h : debounced now s) :
    bump now reason extra s = (s, none) := by
  have h2 : s.debounceMs > 0 ∧ now - s.lastChangeTs < s.debounceMs := h
  unfold bump
  rw [if_pos h2]

theorem bump_unlocked_uuid (now : Int) (extra : Extra) (s : TrackerState)
    (hnd : ¬ debounced now s) (hl : s.firstInstanceLocked = false) :
    bump now "player-uuid-changed" extra s =
      ({ s with instanceSeq := s.instanceSeq + 1, lastChangeTs := now,
                firstInstanceLocked := true },
       some ⟨s.instanceSeq + 1, "player-uuid-changed", extra⟩) := by
  have h2 : ¬ (s.debounceMs > 0 ∧ now - s.lastChangeTs < s.debounceMs) := hnd
  unfold bump shouldTriggerInstance
  rw [if_neg h2]
  simp [hl]

theorem bump_unlocked_other (now : Int) (reason : String) (extra : Extra)
    (s : TrackerState) (hnd : ¬ debounced now s)
    (hl : s.firstInstanceLocked = false)
    (hr : reason ≠ "player-uuid-changed") :
    bump now reason extra s =
      ({ s with instanceSeq := s.instanceSeq + 1, lastChangeTs := now }, none) := by
  have h2 : ¬ (s.debounceMs > 0 ∧ now - s.lastChangeTs < s.debounceMs) := hnd
  unfold bump shouldTriggerInstance
  rw [if_neg h2]
  simp [hl, hr]

theorem bump_locked (now : Int) (reason : String) (extra : Extra)
    (s : TrackerState) (hnd : ¬ debounced now s)
    (hl : s.firstInstanceLocked = true) :
    bump now reason extra s =
      ({ s with instanceSeq := s.instanceSeq + 1, lastChangeTs := now },
       if reason = "scene-id-changed" then
         some ⟨s.instanceSeq + 1, reason, extra⟩
       else none) := by
  have h2 : ¬ (s.debounceMs > 0 ∧ now - s.lastChangeTs < s.debounceMs) := hnd
  unfold bump shouldTriggerInstance
  rw [if_neg h2]
  by_cases hr : reason = "scene-id-changed" <;> simp [hl, hr]

/-! ### Helper lemmas: case equations for `commitPendingScene` -/

theorem commit_no_pending (now : Int) (r : String) (s : TrackerState)
    (h : s.pendingScene = none) :
    commitPendingScene now r s = (s, none) := by
  simp [commitPendingScene, h]

theorem commit_null_target (now : Int) (r : String) (s : TrackerState)
    (p : PendingScene) (h : s.pendingScene = some p)
    (ht : p.nextSceneId = none) :
    commitPendingScene now r s = ({ s with pendingScene := none }, none) := by
  simp [commitPendingScene, h, ht]

theorem commit_same_target (now : Int) (r : String) (s : TrackerState)
    (p : PendingScene) (t : Int) (h : s.pendingScene = some p)
    (ht : p.nextSceneId = some t) (hc : s.currentSceneId = some t) :
    commitPendingScene now r s = ({ s with pendingScene := none }, none) := by
  simp [commitPendingScene, h, ht, hc]

theorem commit_new_target (now : Int) (r : String) (s : TrackerState)
    (p : PendingScene) (t : Int) (h : s.pendingScene = some p)
    (ht : p.nextSceneId = some t) (hc : s.currentSceneId ≠ some t) :
    commitPendingScene now r s =
      bump now "scene-id-changed"
        ⟨s.currentSceneId <|> p.srcSceneId, some t, some r⟩
        { s with currentSceneId := some t, pendingScene := none } := by
  simp [commitPendingScene, h, ht, hc]

/-! ### Helper lemmas: preservation facts -/

theorem bump_preserves (now : Int) (reason : String) (extra : Extra)
    (s : TrackerState) :
    (bump now reason extra s).1.pendingScene = s.pendingScene ∧
    (bump now reason extra s).1.currentSceneId = s.currentSceneId ∧
    (bump now reason extra s).1.currentMapId = s.currentMapId ∧
    (bump now reason extra s).1.scene = s.scene := by
  cases hl : s.firstInstanceLocked <;> by_cases hnd : debounced now s
  · rw [bump_debounced _ _ _ _ hnd]; exact ⟨rfl, rfl, rfl, rfl⟩
  · by_cases hr : reason = "player-uuid-changed"
    · subst hr; rw [bump_unlocked_uuid _ _ _ hnd hl]; exact ⟨rfl, rfl, rfl, rfl⟩
    · rw [bump_unlocked_other _ _ _ _ hnd hl hr]; exact ⟨rfl, rfl, rfl, rfl⟩
  · rw [bump_debounced _ _ _ _ hnd]; exact ⟨rfl, rfl, rfl, rfl⟩
  · rw [bump_locked _ _ _ _ hnd hl]; exact ⟨rfl, rfl, rfl, rfl⟩

theorem bump_lock_monotone (now : Int) (reason : String) (extra : Extra)
    (s : TrackerState) (hl : s.firstInstanceLocked = true) :
    (bump now reason extra s).1.firstInstanceLocked = true := by
  by_cases hnd : debounced now s
  · rw [bump_debounced _ _ _ _ hnd]; exact hl
  · rw [bump_locked _ _ _ _ hnd hl]; exact hl

theorem bump_unlocked_no_trigger (now : Int) (reason : String) (extra : Extra)
    (s : TrackerState) (hl : s.firstInstanceLocked = false)
    (hr : reason ≠ "player-uuid-changed") :
    (bump now reason extra s).2 = none ∧
    (bump now reason extra s).1.firstInstanceLocked = false := by
  by_cases hnd : debounced now s
  · rw [bump_debounced _ _ _ _ hnd]; exact ⟨rfl, hl⟩
  · rw [bump_unlocked_other _ _ _ _ hnd hl hr]; exact ⟨rfl, hl⟩

theorem commit_pending_cleared (now : Int) (r : String) (s : TrackerState) :
    (commitPendingScene now r s).1.pendingScene = none ∨
    (commitPendingScene now r s = (s, none) ∧ s.pendingScene = none) := by
  cases h : s.pendingScene with
  | none => exact Or.inr ⟨commit_no_pending now r s h, rfl⟩
  | some p =>
    cases ht : p.nextSceneId with
    | none => rw [commit_null_target now r s p h ht]; exact Or.inl rfl
    | some t =>
      by_cases hc : s.currentSceneId = some t
      · rw [commit_same_target now r s p t h ht hc]; exact Or.inl rfl
      · rw [commit_new_target now r s p t h ht hc]
        exact Or.inl ((bump_preserves _ _ _ _).1.trans rfl)

theorem commit_unlocked_no_trigger (now : Int) (r : String) (s : TrackerState)
    (hl : s.firstInstanceLocked = false) :
    (commitPendingScene now r s).2 = none ∧
    (commitPendingScene now r s).1.firstInstanceLocked = false := by
  cases h : s.pendingScene with
  | none => rw [commit_no_pending now r s h]; exact ⟨rfl, hl⟩
  | some p =>
    cases ht : p.nextSceneId with
    | none => rw [commit_null_target now r s p h ht]; exact ⟨rfl, hl⟩
    | some t =>
      by_cases hc : s.currentSceneId = some t
      · rw [commit_same_target now r s p t h ht hc]; exact ⟨rfl, hl⟩
      · rw [commit_new_target now r s p t h ht hc]
        exact bump_unlocked_no_trigger _ _ _ _ hl (by decide)

theorem commit_lock_monotone (now : Int) (r : String) (s : TrackerState)
    (hl : s.firstInstanceLocked = true) :
    (commitPendingScene now r s).1.firstInstanceLocked = true := by
  cases h : s.pendingScene with
  | none => rw [commit_no_pending now r s h]; exact hl
  | some p =>
    cases ht : p.nextSceneId with
    | none => rw [commit_null_target now r s p h ht]; exact hl
    | some t =>
      by_cases hc : s.currentSceneId = some t
      · rw [commit_same_target now r s p t h ht hc]; exact hl
      · rw [commit_new_target now r s p t h ht hc]
        exact bump_lock_monotone _ _ _ _ hl

theorem updateFromSceneData_lock (sd : Option SceneDataIn) (s : TrackerState) :
    (updateFromSceneData sd s).firstInstanceLocked = s.firstInstanceLocked := by
  cases sd with
  | none => rfl
  | some d =>
    unfold updateFromSceneData
    by_cases h : descriptorOf d = s.scene <;> simp [h]


theorem updateFromVData_unlocked (now : Int) (v : Option VDataIn)
    (s : TrackerState) (hl : s.firstInstanceLocked = false) :
    (updateFromVData now v s).2 = none ∧
    (updateFromVData now v s).1.firstInstanceLocked = false := by
  cases v with
  | none => exact ⟨rfl, hl⟩
  | some vd =>
    have hl1 : (updateFromSceneData vd.sceneData s).firstInstanceLocked = false :=
      (updateFromSceneData_lock vd.sceneData s).trans hl
    simp only [updateFromVData]
    cases hd : deriveSceneIdFromVData vd with
    | none => simp only [hd]; exact ⟨trivial, hl1⟩
    | some dId =>
      simp only [hd]
      split_ifs with h1 h2
      · exact ⟨rfl, hl1⟩
      · exact commit_unlocked_no_trigger _ _ _ hl1
      · exact bump_unlocked_no_trigger _ _ _ _ hl1 (by decide)

theorem updateFromVData_lock_monotone (now : Int) (v : Option VDataIn)
    (s : TrackerState) (hl : s.firstInstanceLocked = true) :
    (updateFromVData now v s).1.firstInstanceLocked = true := by
  cases v with
  | none => exact hl
  | some vd =>
    have hl1 : (updateFromSceneData vd.sceneData s).firstInstanceLocked = true :=
      (updateFromSceneData_lock vd.sceneData s).trans hl
    simp only [updateFromVData]
    cases hd : deriveSceneIdFromVData vd with
    | none => simp only [hd]; exact hl1
    | some dId =>
      simp only [hd]
      split_ifs with h1 h2
      · exact hl1
      · exact commit_lock_monotone _ _ _ hl1
      · exact bump_lock_monotone _ _ _ _ hl1

theorem setPlayerUuid_lock_monotone (now : Int) (uuid : Option Nat)
    (dbm : Int) (s : TrackerState) (hl : s.firstInstanceLocked = true) :
    (setPlayerUuid now uuid dbm s).1.1.firstInstanceLocked = true := by
  cases uuid with
  | none => exact hl
  | some u =>
    simp only [setPlayerUuid]
    split_ifs with h1 h2
    · exact hl
    · exact hl
    · exact bump_lock_monotone _ _ _ _ hl

theorem onAoiWipe_unlocked (now : Int) (s : TrackerState)
    (hl : s.firstInstanceLocked = false) :
    (onAoiWipe now s).2 = [] ∧
    (onAoiWipe now s).1.firstInstanceLocked = false := by
  have h1 := bump_unlocked_no_trigger now "aoi-wipe"
    ⟨none, s.currentMapId, none⟩ { s with lastAoiWipeTs := now } hl (by decide)
  have h2 := commit_unlocked_no_trigger now "aoi-wipe"
    (bump now "aoi-wipe" ⟨none, s.currentMapId, none⟩
      { s with lastAoiWipeTs := now }).1 h1.2
  simp only [onAoiWipe]
  rw [h1.1, h2.1]
  exact ⟨rfl, h2.2⟩

theorem onSelfAppeared_unlocked (now : Int) (s : TrackerState)
    (hl : s.firstInstanceLocked = false) :
    (onSelfAppearedInAoi now s).2 = [] ∧
    (onSelfAppearedInAoi now s).1.firstInstanceLocked = false := by
  have h1 := bump_unlocked_no_trigger now "self-appeared-in-aoi"
    ⟨none, none, none⟩ { s with lastSelfAppearedTs := now } hl (by decide)
  have h2 := commit_unlocked_no_trigger now "self-appeared-in-aoi"
    (bump now "self-appeared-in-aoi" ⟨none, none, none⟩
      { s with lastSelfAppearedTs := now }).1 h1.2
  have h3 := bump_unlocked_no_trigger now "entered-sub-instance"
    ⟨none, (commitPendingScene now "self-appeared-in-aoi"
      (bump now "self-appeared-in-aoi" ⟨none, none, none⟩
        { s with lastSelfAppearedTs := now }).1).1.currentMapId, none⟩
    (commitPendingScene now "self-appeared-in-aoi"
      (bump now "self-appeared-in-aoi" ⟨none, none, none⟩
        { s with lastSelfAppearedTs := now }).1).1 h2.2 (by decide)
  simp only [onSelfAppearedInAoi]
  split_ifs with hw
  · rw [h1.1, h2.1, h3.1]
    exact ⟨rfl, h3.2⟩
  · rw [h1.1, h2.1]
    exact ⟨rfl, h2.2⟩

theorem step_unlocked_nonidentity (now : Int) (ev : DetectorEvent)
    (s : TrackerState) (hl : s.firstInstanceLocked = false)
    (hev : ev.isIdentity = false) :
    (step now ev s).2 = [] ∧
    (step now ev s).1.firstInstanceLocked = false := by
  cases ev with
  | identity uuid dbm => simp [DetectorEvent.isIdentity] at hev
  | sceneData sd => exact ⟨rfl, (updateFromSceneData_lock sd s).trans hl⟩
  | vData v =>
    have h := updateFromVData_unlocked now v s hl
    refine ⟨?_, h.2⟩
    show (updateFromVData now v s).2.toList = []
    rw [h.1]
    rfl
  | aoiWipe d => exact onAoiWipe_unlocked now s hl
  | selfAppeared => exact onSelfAppeared_unlocked now s hl
  | selfDisappeared =>
    have h1 := bump_unlocked_no_trigger now "self-disappeared-from-aoi"
      ⟨none, none, none⟩ s hl (by decide)
    refine ⟨?_, h1.2⟩
    show (bump now "self-disappeared-from-aoi" ⟨none, none, none⟩ s).2.toList = []
    rw [h1.1]
    rfl
  | popDelta d =>
    refine ⟨rfl, ?_⟩
    show (onPopulationDelta d s).firstInstanceLocked = false
    unfold onPopulationDelta
    split_ifs <;> exact hl

theorem step_lock_monotone (now : Int) (ev : DetectorEvent)
    (s : TrackerState) (hl : s.firstInstanceLocked = true) :
    (step now ev s).1.firstInstanceLocked = true := by
  cases ev with
  | identity uuid dbm => exact setPlayerUuid_lock_monotone now uuid dbm s hl
  | sceneData sd => exact (updateFromSceneData_lock sd s).trans hl
  | vData v => exact updateFromVData_lock_monotone now v s hl
  | aoiWipe d =>
    show (onAoiWipe now s).1.firstInstanceLocked = true
    simp only [onAoiWipe]
    exact commit_lock_monotone _ _ _ (bump_lock_monotone _ _ _ _ hl)
  | selfAppeared =>
    show (onSelfAppearedInAoi now s).1.firstInstanceLocked = true
    have h2 := commit_lock_monotone now "self-appeared-in-aoi"
      (bump now "self-appeared-in-aoi" ⟨none, none, none⟩
        { s with lastSelfAppearedTs := now }).1
      (bump_lock_monotone _ _ _ _ hl)
    simp only [onSelfAppearedInAoi]
    split_ifs with hw
    · exact bump_lock_monotone _ _ _ _ h2
    · exact h2
  | selfDisappeared =>
    show (onSelfDisappearedFromAoi now s).1.firstInstanceLocked = true
    simp only [onSelfDisappearedFromAoi]
    exact bump_lock_monotone _ _ _ _ hl
  | popDelta d =>
    show (onPopulationDelta d s).firstInstanceLocked = true
    unfold onPopulationDelta
    split_ifs <;> exact hl

theorem run_unlocked_nonidentity (evs : List (Int × DetectorEvent))
    (s : TrackerState) (hl : s.firstInstanceLocked = false)
    (hev : ∀ p ∈ evs, (Prod.snd p).isIdentity = false) :
    (run evs s).2 = [] ∧
    (run evs s).1.firstInstanceLocked = false := by
  induction evs generalizing s with
  | nil => exact ⟨rfl, hl⟩
  | cons hd tl ih =>
    have h1 := step_unlocked_nonidentity hd.1 hd.2 s hl
      (hev hd (List.mem_cons_self hd tl))
    have h2 := ih (step hd.1 hd.2 s).1 h1.2
      (fun p hp => hev p (List.mem_cons_of_mem hd hp))
    refine ⟨?_, ?_⟩
    · show (step hd.1 hd.2 s).2 ++ (run tl (step hd.1 hd.2 s).1).2 = []
      rw [h1.1, h2.1]
      rfl
    · show (run tl (step hd.1 hd.2 s).1).1.firstInstanceLocked = false
      exact h2.2

/-! ### Claim theorems -/

/-- C1 (amended): until the first accepted identity change, no raised
reason other than `player-uuid-changed` causes the downstream
`InstanceChanged` notification or cache reset, however many scene or
population events are ingested; the first accepted identity change sets
the `firstInstanceLocked` gate and triggers; once set the gate is never
cleared for the detector's lifetime; after it is set exactly the reason
`scene-id-changed` is trigger-worthy; and every non-debounced raise,
triggering or not, advances the sequence counter. -/
theorem c1_first_instance_gate :
    (∀ evs : List (Int × DetectorEvent), ∀ s : TrackerState,
        s.firstInstanceLocked = false →
        (∀ p ∈ evs, (Prod.snd p).isIdentity = false) →
        (run evs s).2 = [] ∧ (run evs s).1.firstInstanceLocked = false) ∧
    (∀ now : Int, ∀ extra : Extra, ∀ s : TrackerState,
        s.firstInstanceLocked = false → ¬ debounced now s →
        bump now "player-uuid-changed" extra s =
          ({ s with instanceSeq := s.instanceSeq + 1, lastChangeTs := now,
                    firstInstanceLocked := true },
           some ⟨s.instanceSeq + 1, "player-uuid-changed", extra⟩)) ∧
    (∀ now : Int, ∀ ev : DetectorEvent, ∀ s : TrackerState,
        s.firstInstanceLocked = true →
        (step now ev s).1.firstInstanceLocked = true) ∧
    (∀ now : Int, ∀ reason : String, ∀ extra : Extra, ∀ s : TrackerState,
        s.firstInstanceLocked = true → ¬ debounced now s →
        ((bump now reason extra s).2.isSome ↔ reason = "scene-id-changed")) ∧
    (∀ now : Int, ∀ reason : String, ∀ extra : Extra, ∀ s : TrackerState,
        ¬ debounced now s →
        (bump now reason extra s).1.instanceSeq = s.instanceSeq + 1) := by
  refine ⟨fun evs s hl hev => run_unlocked_nonidentity evs s hl hev,
    fun now extra s hl hnd => bump_unlocked_uuid now extra s hnd hl,
    fun now ev s hl => step_lock_monotone now ev s hl,
    fun now reason extra s hl hnd => ?_,
    fun now reason extra s hnd => ?_⟩
  · rw [bump_locked now reason extra s hnd hl]
    by_cases hr : reason = "scene-id-changed" <;> simp [hr]
  · cases hl : s.firstInstanceLocked with
    | false =>
      by_cases hr : reason = "player-uuid-changed"
      · subst hr; rw [bump_unlocked_uuid now extra s hnd hl]
      · rw [bump_unlocked_other now reason extra s hnd hl hr]
    | true => rw [bump_locked now reason extra s hnd hl]

/-- C1 counterexample: with the gate set and debouncing disabled, the
synthetic reason `entered-sub-instance` is raised but does not trigger —
contradicting the claim that after the lock it is trigger-worthy. -/
theorem c1_entered_sub_instance_not_triggering :
    lockedBase.firstInstanceLocked = true ∧
    ¬ debounced 5 lockedBase ∧
    (bump 5 "entered-sub-instance" ⟨none, none, none⟩ lockedBase).2 = none ∧
    (bump 5 "entered-sub-instance" ⟨none, none, none⟩ lockedBase).1.instanceSeq
      = lockedBase.instanceSeq + 1 := by
  decide

/-- C1 witness: the gate theorem applied to a concrete unlocked detector
and a concrete non-identity trace. -/
theorem c1_first_instance_gate_witness :
    trackerInit.firstInstanceLocked = false ∧
    (run [(0, DetectorEvent.aoiWipe 5), (1, DetectorEvent.vData (some v6c))]
        trackerInit).2 = [] :=
  ⟨rfl, (c1_first_instance_gate.1 _ trackerInit rfl (by decide)).1⟩

/-- C3 (amended): committing a pending transition with target `T` is a
pure staging-clear when nothing is staged, `T` is null, or `T` equals
`currentSceneId` (no sequence advance); otherwise it sets
`currentSceneId := T`, clears the staged transition, and raises
`scene-id-changed` carrying `from = currentSceneId ?? stagedSourceId ??
null`, `to = T` and `via =` the commit trigger name (the detector keeps
no line id, so no line id is reset); a second commit right after is
always a no-op. -/
theorem c3_commit_protocol (now : Int) (r : String) (s : TrackerState) :
    (s.pendingScene = none → commitPendingScene now r s = (s, none)) ∧
    (∀ p : PendingScene, s.pendingScene = some p → p.nextSceneId = none →
        commitPendingScene now r s = ({ s with pendingScene := none }, none)) ∧
    (∀ p : PendingScene, ∀ t : Int, s.pendingScene = some p →
        p.nextSceneId = some t → s.currentSceneId = some t →
        commitPendingScene now r s = ({ s with pendingScene := none }, none)) ∧
    (∀ p : PendingScene, ∀ t : Int, s.pendingScene = some p →
        p.nextSceneId = some t → s.currentSceneId ≠ some t →
        commitPendingScene now r s =
          bump now "scene-id-changed"
            ⟨s.currentSceneId <|> p.srcSceneId, some t, some r⟩
            { s with currentSceneId := some t, pendingScene := none }) ∧
    (∀ now2 : Int, ∀ r2 : String,
        commitPendingScene now2 r2 (commitPendingScene now r s).1 =
          ((commitPendingScene now r s).1, none)) := by
  have hcl : (commitPendingScene now r s).1.pendingScene = none := by
    rcases commit_pending_cleared now r s with h | ⟨he, hn⟩
    · exact h
    · rw [he]; exact hn
  exact ⟨fun h => commit_no_pending now r s h,
    fun p h ht => commit_null_target now r s p h ht,
    fun p t h ht hc => commit_same_target now r s p t h ht hc,
    fun p t h ht hc => commit_new_target now r s p t h ht hc,
    fun now2 r2 => commit_no_pending now2 r2 _ hcl⟩

/-- C3 counterexample: committing from a state whose committed
`currentSceneId` is null reports `from = 5` (the staged source scene id),
not the previous scene id `null` that the claim requires the event to
carry. -/
theorem c3_from_field_counterexample :
    s3c.currentSceneId = none ∧
    (commitPendingScene 10 "aoi-wipe" s3c).2 =
      some ⟨2, "scene-id-changed", ⟨some 5, some 100, some "aoi-wipe"⟩⟩ ∧
    some (5 : Int) ≠ (none : Option Int) := by decide

/-- C3 witness: the commit protocol applied to the concrete staged state
`s3c`. -/
theorem c3_commit_protocol_witness :
    s3c.pendingScene = some ⟨some 5, some 100, some 100, some 100⟩ ∧
    commitPendingScene 10 "aoi-wipe" s3c =
      bump 10 "scene-id-changed" ⟨some 5, some 100, some "aoi-wipe"⟩
        { s3c with currentSceneId := some 100, pendingScene := none } :=
  ⟨rfl,
    (c3_commit_protocol 10 "aoi-wipe" s3c).2.2.2.1
      ⟨some 5, some 100, some 100, some 100⟩ 100 rfl rfl (by decide)⟩

/-- C4: a reason raised strictly within a positive debounce window of the
previously accepted raise is swallowed entirely — no sequence advance, no
timestamp update, no notification. -/
theorem c4_debounce_swallows (now : Int) (reason : String) (extra : Extra)
    (s : TrackerState) (h1 : s.debounceMs > 0)
    (h2 : now - s.lastChangeTs < s.debounceMs) :
    bump now reason extra s = (s, none) :=
  bump_debounced now reason extra s ⟨h1, h2⟩

/-- C4 witness: a 500ms window swallows a raise 10ms after construction. -/
theorem c4_debounce_swallows_witness :
    (mkTracker (JsNum.num 500) 0).debounceMs > 0 ∧
    (10 : Int) - (mkTracker (JsNum.num 500) 0).lastChangeTs
      < (mkTracker (JsNum.num 500) 0).debounceMs ∧
    bump 10 "scene-id-changed" ⟨none, none, none⟩ (mkTracker (JsNum.num 500) 0)
      = (mkTracker (JsNum.num 500) 0, none) :=
  ⟨by decide, by decide,
    c4_debounce_swallows 10 "scene-id-changed" ⟨none, none, none⟩ _
      (by decide) (by decide)⟩

/-- C10: with `debounceMs` 0 (the constructor default; non-numeric values
also coerce to 0) debouncing is disabled entirely: every raise advances
the sequence counter and records its timestamp — the swallow behavior
needs `debounceMs > 0`. -/
theorem c10_zero_debounce_disables :
    normalizeDebounce JsNum.nonNumeric = 0 ∧
    (∀ now : Int, (mkTracker (JsNum.num 0) now).debounceMs = 0) ∧
    (∀ now : Int, ∀ reason : String, ∀ extra : Extra, ∀ s : TrackerState,
        s.debounceMs = 0 →
        (bump now reason extra s).1.instanceSeq = s.instanceSeq + 1 ∧
        (bump now reason extra s).1.lastChangeTs = now) := by
  refine ⟨rfl, fun now => rfl, fun now reason extra s h0 => ?_⟩
  have hnd : ¬ debounced now s := by
    intro hc
    have := hc.1
    rw [h0] at this
    exact absurd this (by decide)
  cases hl : s.firstInstanceLocked with
  | false =>
    by_cases hr : reason = "player-uuid-changed"
    · subst hr; rw [bump_unlocked_uuid now extra s hnd hl]; exact ⟨rfl, rfl⟩
    · rw [bump_unlocked_other now reason extra s hnd hl hr]; exact ⟨rfl, rfl⟩
  | true => rw [bump_locked now reason extra s hnd hl]; exact ⟨rfl, rfl⟩

/-- C10 witness: the freshly constructed tracker processes an immediate
raise. -/
theorem c10_zero_debounce_disables_witness :
    trackerInit.debounceMs = 0 ∧
    (bump 0 "aoi-wipe" ⟨none, none, none⟩ trackerInit).1.instanceSeq
      = trackerInit.instanceSeq + 1 :=
  ⟨rfl,
    (c10_zero_debounce_disables.2.2 0 "aoi-wipe" ⟨none, none, none⟩
      trackerInit rfl).1⟩

/-- C5 (amended): an `updateFromSceneData` call whose normalized
descriptor equals the stored one on every field is a no-op (no staging,
no sequence advance); when any field differs the descriptor wholesale
replaces the stored one and a pending transition with the descriptor's
`levelMapId` (possibly null) as candidate target overwrites any
previously staged transition — staging happens on every field change, not
only when a non-null, different `levelMapId` is proposed. -/
theorem c5_scene_descriptor_ingestion (s : TrackerState) :
    (updateFromSceneData none s = s) ∧
    (∀ d : SceneDataIn, descriptorOf d = s.scene →
        updateFromSceneData (some d) s = s) ∧
    (∀ d : SceneDataIn, descriptorOf d ≠ s.scene →
        updateFromSceneData (some d) s =
          { s with
              scene := descriptorOf d
              pendingScene := some ⟨d.lastSceneDataSceneId, d.levelMapId,
                d.levelMapId, d.levelMapId⟩ }) := by
  refine ⟨rfl, fun d h => ?_, fun d h => ?_⟩
  · simp [updateFromSceneData, h]
  · simp [updateFromSceneData, h]

/-- C5 counterexample: a descriptor whose only change is a dungeon GUID
(null `levelMapId`) still stages a pending transition, contradicting the
claim that one is created only for a non-null, different `levelMapId`. -/
theorem c5_null_target_staged_counterexample :
    d5c.levelMapId = none ∧
    descriptorOf d5c ≠ trackerInit.scene ∧
    (updateFromSceneData (some d5c) trackerInit).pendingScene =
      some ⟨none, none, none, none⟩ := by decide

/-- C5 witness: re-ingesting an identical descriptor is a no-op. -/
theorem c5_scene_descriptor_ingestion_witness :
    descriptorOf d6c = s6c.scene ∧
    updateFromSceneData (some d6c) s6c = s6c :=
  ⟨rfl, (c5_scene_descriptor_ingestion s6c).2.1 d6c rfl⟩

/-- C6 (amended): when the derived scene id is non-null and differs from
the (post-staging) `currentSceneId`, `updateFromVData` commits the staged
transition with commit trigger `map-or-dungeon-changed`, or — with
nothing staged — sets the scene directly and raises `scene-id-changed`
via `derived`; in the spec's Scenario 3 the commit raises reason
`scene-id-changed` with `via = map-or-dungeon-changed` (not reason
`map-or-dungeon-changed`), `currentSceneId` becomes 100 and the sequence
advances by one. -/
theorem c6_vdata_commit (now : Int) (v : VDataIn) (s : TrackerState) :
    (∀ dId : Int, deriveSceneIdFromVData v = some dId →
        (updateFromSceneData v.sceneData s).currentSceneId ≠ some dId →
        (updateFromSceneData v.sceneData s).pendingScene.isSome = true →
        updateFromVData now (some v) s =
          commitPendingScene now "map-or-dungeon-changed"
            (updateFromSceneData v.sceneData s)) ∧
    (∀ dId : Int, deriveSceneIdFromVData v = some dId →
        (updateFromSceneData v.sceneData s).currentSceneId ≠ some dId →
        (updateFromSceneData v.sceneData s).pendingScene = none →
        updateFromVData now (some v) s =
          bump now "scene-id-changed"
            ⟨(updateFromSceneData v.sceneData s).currentSceneId, some dId,
              some "derived"⟩
            { updateFromSceneData v.sceneData s with
                currentSceneId := some dId }) ∧
    (updateFromVData 10 (some v6c) s6c =
      ({ s6c with currentSceneId := some 100, pendingScene := none,
                  instanceSeq := 2, lastChangeTs := 10 },
       some ⟨2, "scene-id-changed",
         ⟨some 5, some 100, some "map-or-dungeon-changed"⟩⟩)) := by
  refine ⟨fun dId hd hne hp => ?_, fun dId hd hne hp => ?_, by decide⟩
  · simp only [updateFromVData, hd]
    rw [if_neg hne, if_pos hp]
  · simp only [updateFromVData, hd]
    rw [if_neg hne, if_neg (by simp [hp])]

/-- C6 counterexample: in Scenario 3 the emitted notification's reason
string is `scene-id-changed` (with `via = map-or-dungeon-changed`), not
`map-or-dungeon-changed` as the claim states. -/
theorem c6_reported_reason_counterexample :
    (updateFromVData 10 (some v6c) s6c).2 =
      some ⟨2, "scene-id-changed",
        ⟨some 5, some 100, some "map-or-dungeon-changed"⟩⟩ ∧
    "scene-id-changed" ≠ "map-or-dungeon-changed" := by decide

/-- C6 witness: the commit branch taken on the concrete Scenario 3
state. -/
theorem c6_vdata_commit_witness :
    deriveSceneIdFromVData v6c = some 100 ∧
    updateFromVData 10 (some v6c) s6c =
      commitPendingScene 10 "map-or-dungeon-changed"
        (updateFromSceneData v6c.sceneData s6c) :=
  ⟨rfl, (c6_vdata_commit 10 v6c s6c).1 100 rfl (by decide) (by decide)⟩

theorem qualifyingPlayers_eq_filter (users : List UserEntry) :
    qualifyingPlayers users =
      (users.filter (fun u => decide (0 < u.totalDamage ∨ 0 < u.totalHeal))).map
        (fun u => ⟨u.uid, u.name, u.totalDamage, u.totalHeal⟩) := by
  induction users with
  | nil => rfl
  | cons u us ih =>
    simp only [qualifyingPlayers, List.filterMap_cons, List.filter_cons] at *
    by_cases hq : u.totalDamage ≤ 0 ∧ u.totalHeal ≤ 0
    · have hd : decide (0 < u.totalDamage ∨ 0 < u.totalHeal) = false := by
        simp only [decide_eq_false_iff_not]
        omega
      simp [buildPlayerSnapshot, hq, hd, ih]
    · have hd : decide (0 < u.totalDamage ∨ 0 < u.totalHeal) = true := by
        simp only [decide_eq_true_eq]
        omega
      simp [buildPlayerSnapshot, hq, hd, ih]

/-- C2: finalizing an open session on an instance change filters the
snapshot to players with nonzero damage or healing; an empty filtered
list discards the session without calling the store's add, a non-empty
one persists the record with `partySize` equal to the filtered list's
length; in both cases the open-session reference is cleared. -/
theorem c2_finalize_filter_discard (now : Int) (reason : String)
    (addFails : Bool) (st : ManagerState) (store : List SessionRecord)
    (cs : OpenSession) (h : st.currentSession = some cs) :
    (qualifyingPlayers st.users =
      (st.users.filter (fun u => decide (0 < u.totalDamage ∨ 0 < u.totalHeal))).map
        (fun u => ⟨u.uid, u.name, u.totalDamage, u.totalHeal⟩)) ∧
    (qualifyingPlayers st.users = [] →
      finalizeOnInstanceChange now reason addFails st store =
        ({ st with currentSession := none }, store)) ∧
    (qualifyingPlayers st.users ≠ [] → addFails = false →
      finalizeOnInstanceChange now reason addFails st store =
        ({ st with currentSession := none },
         store ++ [⟨cs.id, cs.name, cs.startedAt, now,
           max 0 (now - cs.startedAt), none,
           (if reason = "" then "instance_change" else reason), cs.seq,
           cs.instanceId, cs.fromInstance,
           (qualifyingPlayers st.users).length,
           qualifyingPlayers st.users⟩])) ∧
    ((finalizeOnInstanceChange now reason addFails st store).1.currentSession
      = none) := by
  refine ⟨qualifyingPlayers_eq_filter st.users, fun he => ?_, fun hne hf => ?_, ?_⟩
  · simp only [finalizeOnInstanceChange, h]
    rw [if_pos he]
  · simp only [finalizeOnInstanceChange, h]
    rw [if_neg hne]
    subst hf
    rfl
  · simp only [finalizeOnInstanceChange, h]
    split_ifs <;> rfl

/-- C2 witness: the finalize step at a concrete manager state with one
qualifying player out of two. -/
theorem c2_finalize_filter_discard_witness :
    mgrSt.currentSession = some openS ∧
    qualifyingPlayers mgrSt.users ≠ [] ∧
    finalizeOnInstanceChange 200 "scene-id-changed" false mgrSt [] =
      ({ mgrSt with currentSession := none },
       [] ++ [⟨openS.id, openS.name, openS.startedAt, 200,
         max 0 (200 - openS.startedAt), none,
         (if "scene-id-changed" = "" then "instance_change"
          else "scene-id-changed"), openS.seq, openS.instanceId,
         openS.fromInstance, (qualifyingPlayers mgrSt.users).length,
         qualifyingPlayers mgrSt.users⟩]) :=
  ⟨rfl, by decide,
    (c2_finalize_filter_discard 200 "scene-id-changed" false mgrSt []
      openS rfl).2.2.1 (by decide) rfl⟩

/-- C7: when the store's add throws during an instance-change
finalization, the manager continues: the store is left unchanged, the
open-session reference is cleared by the finalize step, per-instance user
state is reset, and a new in-memory session is opened. -/
theorem c7_failed_persist_not_blocking (now : Int) (freshId : Nat)
    (table : List (Int × String)) (seq : Nat) (reason : String)
    (extra : Extra) (st : ManagerState) (store : List SessionRecord)
    (cs : OpenSession) (h : st.currentSession = some cs)
    (hne : qualifyingPlayers st.users ≠ []) :
    ((onInstanceChanged now freshId table true seq reason extra st store).2
      = store) ∧
    ((finalizeOnInstanceChange now reason true st store).1.currentSession
      = none) ∧
    ((onInstanceChanged now freshId table true seq reason extra st store).1.users
      = []) ∧
    ((onInstanceChanged now freshId table true seq reason extra st store).1.currentSession
      = some ⟨freshId,
          mapNameFor table (extra.toId.getD (seq : Int)) ++ " - " ++ toString now,
          now, reason, some seq, some (extra.toId.getD (seq : Int)),
          extra.fromId⟩) := by
  refine ⟨?_, ?_, ?_, ?_⟩
  · simp [onInstanceChanged, finalizeOnInstanceChange, h, hne]
  · simp [finalizeOnInstanceChange, h, hne]
  · simp [onInstanceChanged, openNewSession, clearAllUsers,
      finalizeOnInstanceChange, h, hne]
  · simp [onInstanceChanged, openNewSession, clearAllUsers,
      finalizeOnInstanceChange, h, hne]

/-- C7 witness: a throwing add at the concrete manager state leaves the
store empty and still opens the next session. -/
theorem c7_failed_persist_not_blocking_witness :
    mgrSt.currentSession = some openS ∧
    qualifyingPlayers mgrSt.users ≠ [] ∧
    (onInstanceChanged 200 77 [] true 2 "scene-id-changed"
        ⟨some 42, some 100, none⟩ mgrSt []).2 = [] :=
  ⟨rfl, by decide,
    (c7_failed_persist_not_blocking 200 77 [] 2 "scene-id-changed"
      ⟨some 42, some 100, none⟩ mgrSt [] openS rfl (by decide)).1⟩

theorem finalizeAndPersist_of_closed (now : Int) (r : String) (f : Bool)
    (st : ManagerState) (store : List SessionRecord)
    (hn : st.currentSession = none) :
    finalizeAndPersistSession now r f st store = (st, store) := by
  simp only [finalizeAndPersistSession, hn]

/-- C9: shutdown finalization is idempotent — after one run the
open-session reference is cleared, and every subsequent call is a no-op
with no store add and no state change. -/
theorem c9_shutdown_finalize_idempotent (now1 now2 : Int) (r1 r2 : String)
    (f1 f2 : Bool) (st : ManagerState) (store : List SessionRecord) :
    ((finalizeAndPersistSession now1 r1 f1 st store).1.currentSession = none) ∧
    (finalizeAndPersistSession now2 r2 f2
        (finalizeAndPersistSession now1 r1 f1 st store).1
        (finalizeAndPersistSession now1 r1 f1 st store).2 =
      ((finalizeAndPersistSession now1 r1 f1 st store).1,
       (finalizeAndPersistSession now1 r1 f1 st store).2)) := by
  have hcl : (finalizeAndPersistSession now1 r1 f1 st store).1.currentSession
      = none := by
    cases h : st.currentSession with
    | none => simp only [finalizeAndPersistSession, h]
    | some cs =>
      simp only [finalizeAndPersistSession, h]
      split_ifs <;> rfl
  exact ⟨hcl, finalizeAndPersist_of_closed now2 r2 f2 _ _ hcl⟩

/-- C8 (amended): `list()` returns one stripped entry per persisted
session (`ListedSession` carries no snapshot or legacy player-count
field), ordered by `startedAt` descending, with `partySize` derived by
priority: the explicit `partySize` field when it is a positive number,
else the snapshot's player count, else the legacy `playersCount` field,
else 0. -/
theorem c8_list_sessions (store : List RawSession) :
    (listSessions store).Perm (store.map listedOf) ∧
    (listSessions store).length = store.length ∧
    List.Sorted listedDesc (listSessions store) ∧
    (∀ s : RawSession, ∀ n : Int, s.partySize = some n → 0 < n →
        derivePartySize s = n) ∧
    (∀ s : RawSession, ∀ n : Int, s.partySize = some n → ¬ 0 < n →
        derivePartySize s = partySizeFallback s) ∧
    (∀ s : RawSession, s.partySize = none →
        derivePartySize s = partySizeFallback s) ∧
    (∀ s : RawSession, ∀ ps : List PlayerSnap, s.snapshotPlayers = some ps →
        partySizeFallback s = (ps.length : Int)) ∧
    (∀ s : RawSession, s.snapshotPlayers = none →
        partySizeFallback s = s.playersCount.getD 0) :=
  ⟨List.perm_insertionSort listedDesc (store.map listedOf),
   by
     have hp := (List.perm_insertionSort listedDesc (store.map listedOf)).length_eq
     rw [List.length_map] at hp
     exact hp,
   List.sorted_insertionSort listedDesc (store.map listedOf),
   fun s n h hp => by simp [derivePartySize, h, hp],
   fun s n h hp => by simp [derivePartySize, h, hp],
   fun s h => by simp [derivePartySize, h],
   fun s ps h => by simp [partySizeFallback, h],
   fun s h => by simp [partySizeFallback, h]⟩

/-- C8 counterexample: a record whose explicit `partySize` field is the
number 0 is listed with `partySize` 2 (its snapshot's player count), not
0 as the claimed priority (explicit field first, unconditionally) would
give. -/
theorem c8_zero_partysize_counterexample :
    r0c8.partySize = some 0 ∧
    derivePartySize r0c8 = 2 ∧
    specClaimedPartySize r0c8 = 0 ∧
    listSessions [r0c8] = [⟨0, "s", some 5, 2⟩] ∧
    (2 : Int) ≠ 0 := by decide

/-- C8 witness: the derivation applied to a record with an explicit
positive `partySize`. -/
theorem c8_list_sessions_witness :
    r1c8.partySize = some 3 ∧ derivePartySize r1c8 = 3 :=
  ⟨rfl, (c8_list_sessions [r1c8]).2.2.2.1 r1c8 3 rfl (by decide)⟩
